import Mathlib

/-
Verification of the x402 Solana resource server (the GET /premium handler in
the examples/solana server, together with the client payload format).

The handler is embedded as a pure function of (a) the server configuration,
(b) an environment recording the outcomes of the external chain calls made in
order (deserialization attempts, sendRawTransaction, confirmTransaction,
getTransaction), and (c) the incoming request. Exceptions thrown by a chain
call are modelled as a CallOutcome.throws value; the handler catch-all maps
any of them to a 402 body, exactly as the source catch clause does.
-/

namespace X402

/-- One entry of preTokenBalances or postTokenBalances in the confirmed
transaction meta. The amount field is uiTokenAmount.amount, a decimal string
in the source, converted with Number before use; it is modelled as the
integer it denotes. -/
structure TokenBalance where
  accountIndex : Nat
  amount : Int
  deriving Repr, DecidableEq

/-- The part of the confirmed transaction returned by getTransaction that the
handler reads: meta.preTokenBalances, meta.postTokenBalances and
transaction.message.staticAccountKeys (keys as base58 strings). -/
structure ConfirmedTx where
  preTokenBalances : List TokenBalance
  postTokenBalances : List TokenBalance
  staticAccountKeys : List String
  deriving Repr, DecidableEq

/-- Outcome of one awaited external call: a returned value, or a thrown
exception carrying the message the catch clause would read from it. -/
inductive CallOutcome (α : Type) where
  | ok (a : α)
  | throws (msg : String)
  deriving Repr, DecidableEq

/-- Environment fixing the results of the external calls the handler makes.
legacyOk and versionedOk record whether Transaction.from, respectively
VersionedTransaction.deserialize, succeeds on the submitted bytes. send is
sendRawTransaction (returning the signature), confirm is confirmTransaction
(ok none means confirmation.value.err is null, ok (some e) means a non-null
error object rendered as e), getTx is getTransaction. -/
structure Env where
  legacyOk : Bool
  versionedOk : Bool
  send : CallOutcome String
  confirm : CallOutcome (Option String)
  getTx : CallOutcome (Option ConfirmedTx)
  deriving Repr, DecidableEq

/-- The JSON object obtained by base64-decoding and JSON-parsing the
X-PAYMENT header. Fields the source reads; each is Option because JS yields
undefined for a missing key. serializedTransaction stands for
payload.serializedTransaction; none covers both a missing payload object and
a missing serializedTransaction field (either way the source throws a
TypeError that the catch-all turns into a 402). -/
structure PaymentProof where
  x402Version : Option Int
  scheme : Option String
  network : Option String
  serializedTransaction : Option String
  deriving Repr, DecidableEq

/-- The X-PAYMENT header as seen after the decode step: either JSON.parse
throws (malformedJson, carrying the exception message), or it yields a
parsed object. -/
inductive XPaymentHeader where
  | malformedJson (msg : String)
  | parsed (proof : PaymentProof)
  deriving Repr, DecidableEq

/-- An incoming GET /premium request: the X-PAYMENT header if present. -/
structure Request where
  xPayment : Option XPaymentHeader
  deriving Repr, DecidableEq

/-- Server configuration: RECIPIENT_WALLET public key, the derived
RECIPIENT_TOKEN_ACCOUNT, USDC_MINT and PRICE_USDC. -/
structure Config where
  recipientWallet : String
  recipientTokenAccount : String
  usdcMint : String
  priceUSDC : Int
  deriving Repr, DecidableEq

/-- One element of the accepts array in the no-payment 402 quote body,
with exactly the fields the source constructs. amountUSDC is amount divided
by 1000000 (a JS float in the source; modelled at integer precision, its
value is not used by any theorem). -/
structure AcceptsEntry where
  scheme : String
  network : String
  recipientWallet : String
  tokenAccount : String
  mint : String
  amount : Int
  amountUSDC : Int
  resource : String
  description : String
  mimeType : String
  deriving Repr, DecidableEq

/-- A response body produced by the handler: an error object (with optional
details), the no-payment quote object, or the premium-content object. -/
inductive Body where
  | errBody (error : String) (details : Option String)
  | quote (x402Version : Int) (accepts : List AcceptsEntry)
  | premium (data : String) (signature : String) (amount : Int)
      (recipient : String) (explorerUrl : String)
  deriving Repr, DecidableEq

/-- The JSON key names of a body object, in source construction order. -/
def Body.keys : Body → List String
  | .errBody _ none => ["error"]
  | .errBody _ (some _) => ["error", "details"]
  | .quote _ _ => ["x402Version", "accepts"]
  | .premium _ _ _ _ _ => ["data", "paymentDetails"]

/-- The JSON key names of an accepts element, as constructed by the source. -/
def AcceptsEntry.keys : AcceptsEntry → List String :=
  fun _ =>
    ["scheme", "network", "recipientWallet", "tokenAccount", "mint",
     "amount", "amountUSDC", "resource", "description", "mimeType"]

/-- Whether a body is the premium-content body. -/
def Body.isPremium : Body → Bool
  | .premium _ _ _ _ _ => true
  | _ => false

/-- An HTTP response: status code and JSON body. -/
structure Response where
  status : Nat
  body : Body
  deriving Repr, DecidableEq

/-- Result of running the handler on one request: the response, plus whether
sendRawTransaction was invoked during the handling (a chain submission). -/
structure HandlerResult where
  response : Response
  submitted : Bool
  deriving Repr, DecidableEq

/-- The loop over postTokenBalances that computes amountReceived: for the
first entry whose staticAccountKeys entry equals the recipient token
account, return its post amount minus the matching preTokenBalances amount
(0 when absent); entries with a non-matching or out-of-range key are
skipped; if no entry matches, the initial value 0 survives. -/
def amountReceivedLoop (recipient : String) (preTokenBalances : List TokenBalance)
    (staticAccountKeys : List String) : List TokenBalance → Int
  | [] => 0
  | postBal :: rest =>
    match staticAccountKeys.get? postBal.accountIndex with
    | some key =>
      if key = recipient then
        postBal.amount -
          (((preTokenBalances.find? fun pre =>
              pre.accountIndex == postBal.accountIndex).map
            TokenBalance.amount).getD 0)
      else amountReceivedLoop recipient preTokenBalances staticAccountKeys rest
    | none => amountReceivedLoop recipient preTokenBalances staticAccountKeys rest

/-- amountReceived as the handler computes it from the confirmed
transaction: the token balance delta credited to the recipient token
account. -/
def amountReceived (recipient : String) (ctx : ConfirmedTx) : Int :=
  amountReceivedLoop recipient ctx.preTokenBalances ctx.staticAccountKeys
    ctx.postTokenBalances

/-- Which deserialization succeeds: Transaction.from is attempted first and
wins if it succeeds; otherwise VersionedTransaction.deserialize is tried;
none when both throw. -/
inductive TxKind where
  | legacy
  | versioned
  deriving Repr, DecidableEq

/-- The nested try/catch around the two deserialization attempts. -/
def deserializeTx (env : Env) : Option TxKind :=
  if env.legacyOk then some TxKind.legacy
  else if env.versionedOk then some TxKind.versioned
  else none

/-- The insufficient-payment error string built by the source template. -/
def insufficientMsg (received expected : Int) : String :=
  "Insufficient payment: received " ++ toString received ++
    ", expected " ++ toString expected

/-- The Solana explorer URL string built for a signature. -/
def explorerUrlFor (signature : String) : String :=
  "https://explorer.solana.com/tx/" ++ signature ++ "?cluster=devnet"

/-- The premium content data string (source string, emoji prefix elided). -/
def premiumContentData : String :=
  "Premium content unlocked! This is exclusive data accessible only after USDC payment on Solana."

/-- Placeholder for the TypeError message thrown when
payload.serializedTransaction is missing (the exact JS message text is
environment dependent and unused by any theorem). -/
def missingPayloadMsg : String :=
  "Cannot read properties of undefined"

/-- The accepts array of the no-payment 402 quote, as the source builds it. -/
def quoteAccepts (cfg : Config) : List AcceptsEntry :=
  [{ scheme := "exact"
     network := "solana-devnet"
     recipientWallet := cfg.recipientWallet
     tokenAccount := cfg.recipientTokenAccount
     mint := cfg.usdcMint
     amount := cfg.priceUSDC
     amountUSDC := cfg.priceUSDC / 1000000
     resource := "/premium"
     description := "Premium content access"
     mimeType := "application/json" }]

/-- The no-payment 402 quote body. Note: the source object has exactly the
keys x402Version and accepts, no error key. -/
def quoteBody (cfg : Config) : Body :=
  Body.quote 1 (quoteAccepts cfg)

/-- Lines 227 to 310 of the server: submit the raw transaction, await
confirmation, fetch the confirmed transaction, compute the balance delta to
the recipient token account and compare it against the price. Every branch
here has submitted = true because sendRawTransaction has been invoked. A
thrown call maps to the catch-all 402. -/
def submitAndVerify (cfg : Config) (env : Env) : HandlerResult :=
  match env.send with
  | .throws msg =>
    ⟨⟨402, Body.errBody "Payment verification failed" (some msg)⟩, true⟩
  | .ok signature =>
    match env.confirm with
    | .throws msg =>
      ⟨⟨402, Body.errBody "Payment verification failed" (some msg)⟩, true⟩
    | .ok (some e) =>
      ⟨⟨402, Body.errBody "Transaction failed" (some e)⟩, true⟩
    | .ok none =>
      match env.getTx with
      | .throws msg =>
        ⟨⟨402, Body.errBody "Payment verification failed" (some msg)⟩, true⟩
      | .ok none =>
        ⟨⟨402, Body.errBody "Could not fetch transaction details" none⟩, true⟩
      | .ok (some ctx) =>
        let received := amountReceived cfg.recipientTokenAccount ctx
        if received < cfg.priceUSDC then
          ⟨⟨402, Body.errBody (insufficientMsg received cfg.priceUSDC) none⟩,
            true⟩
        else
          ⟨⟨200, Body.premium premiumContentData signature received
              cfg.recipientTokenAccount (explorerUrlFor signature)⟩, true⟩

/-- Handling of a present X-PAYMENT header (lines 194 to 317): a JSON parse
failure is caught by the catch-all; a missing serializedTransaction throws a
TypeError, also caught; then the two deserialization attempts; on success
the transaction is submitted. No field of the parsed proof other than
serializedTransaction is consulted (x402Version, scheme and network are only
logged). -/
def handlePayment (cfg : Config) (env : Env) : XPaymentHeader → HandlerResult
  | .malformedJson msg =>
    ⟨⟨402, Body.errBody "Payment verification failed" (some msg)⟩, false⟩
  | .parsed proof =>
    match proof.serializedTransaction with
    | none =>
      ⟨⟨402, Body.errBody "Payment verification failed"
          (some missingPayloadMsg)⟩, false⟩
    | some _ =>
      match deserializeTx env with
      | none => ⟨⟨402, Body.errBody "Invalid transaction format" none⟩, false⟩
      | some _ => submitAndVerify cfg env

/-- The whole GET /premium handler: with no X-PAYMENT header, the 402 quote;
otherwise payment handling. -/
def premiumHandler (cfg : Config) (env : Env) (req : Request) : HandlerResult :=
  match req.xPayment with
  | none => ⟨⟨402, quoteBody cfg⟩, false⟩
  | some hdr => handlePayment cfg env hdr

/-- Number of chain submissions made while serving a list of requests
against a fixed environment (the server keeps no cross-request state, so
each request is handled independently). -/
def chainSubmissions (cfg : Config) (env : Env) (reqs : List Request) : Nat :=
  (reqs.map fun r => (premiumHandler cfg env r).submitted).count true

/- Concrete instances used by witnesses and counterexamples. -/

/-- Example configuration: price 1000000 (1 USDC), as the source default. -/
def cfgEx : Config :=
  { recipientWallet := "SrvWallet"
    recipientTokenAccount := "SrvTok"
    usdcMint := "MintUSDC"
    priceUSDC := 1000000 }

/-- A confirmed transaction crediting exactly 1000000 to the recipient token
account (account index 1). -/
def ctxPaid : ConfirmedTx :=
  { preTokenBalances := [⟨1, 5000000⟩]
    postTokenBalances := [⟨1, 6000000⟩]
    staticAccountKeys := ["Payer", "SrvTok"] }

/-- A confirmed transaction crediting only 500000 to the recipient token
account. -/
def ctxUnderpaid : ConfirmedTx :=
  { preTokenBalances := [⟨1, 5000000⟩]
    postTokenBalances := [⟨1, 5500000⟩]
    staticAccountKeys := ["Payer", "SrvTok"] }

/-- A confirmed transaction whose post balances have no entry for the
recipient token account at all. -/
def ctxNone : ConfirmedTx :=
  { preTokenBalances := []
    postTokenBalances := [⟨1, 7⟩]
    staticAccountKeys := ["Payer", "OtherTok"] }

/-- An environment where every chain call succeeds and the confirmed
transaction is the given one. -/
def envOk (ctx : ConfirmedTx) : Env :=
  { legacyOk := true
    versionedOk := false
    send := CallOutcome.ok "SIG"
    confirm := CallOutcome.ok none
    getTx := CallOutcome.ok (some ctx) }

/-- An environment where both deserialization attempts fail. -/
def envNoDeser : Env :=
  { legacyOk := false
    versionedOk := false
    send := CallOutcome.ok "SIG"
    confirm := CallOutcome.ok none
    getTx := CallOutcome.ok none }

/-- An environment where sendRawTransaction throws a transport fault. -/
def envTransportFault : Env :=
  { legacyOk := true
    versionedOk := false
    send := CallOutcome.throws "fetch failed"
    confirm := CallOutcome.ok none
    getTx := CallOutcome.ok none }

/-- A well-formed payment proof matching the quoted requirement. -/
def proofEx : PaymentProof :=
  { x402Version := some 1
    scheme := some "exact"
    network := some "solana-devnet"
    serializedTransaction := some "TXB64" }

/-- A payment proof whose scheme and network are not among the accepted
(exact, solana-devnet) pair. -/
def proofBogus : PaymentProof :=
  { x402Version := some 1
    scheme := some "bsc"
    network := some "bsc-mainnet"
    serializedTransaction := some "TXB64" }

/-- A payment proof with an unsupported version and empty scheme/network. -/
def proofBadMeta : PaymentProof :=
  { x402Version := some 999
    scheme := some ""
    network := some ""
    serializedTransaction := some "TXB64" }

/-- The request carrying proofEx. -/
def reqEx : Request := ⟨some (XPaymentHeader.parsed proofEx)⟩

/-- The request carrying proofBogus. -/
def reqBogus : Request := ⟨some (XPaymentHeader.parsed proofBogus)⟩

/- Helper lemmas about the handler. -/

/-- Every branch of the post-deserialization stage records a chain
submission. -/
theorem submitAndVerify_submitted (cfg : Config) (env : Env) :
    (submitAndVerify cfg env).submitted = true := by
  unfold submitAndVerify
  cases hs : env.send with
  | throws m => rfl
  | ok sig =>
    cases hc : env.confirm with
    | throws m => rfl
    | ok oe =>
      cases oe with
      | some e => rfl
      | none =>
        cases hg : env.getTx with
        | throws m => rfl
        | ok ot =>
          cases ot with
          | none => rfl
          | some ctx =>
            dsimp only
            split <;> rfl

/-- The post-deserialization stage returns status 200 only when the
confirmed transaction was fetched and its balance delta to the recipient
token account is at least the price. -/
theorem submitAndVerify_200 (cfg : Config) (env : Env)
    (h200 : (submitAndVerify cfg env).response.status = 200) :
    ∃ ctx, env.getTx = CallOutcome.ok (some ctx) ∧
      cfg.priceUSDC ≤ amountReceived cfg.recipientTokenAccount ctx := by
  cases hs : env.send with
  | throws m => simp [submitAndVerify, hs] at h200
  | ok sig =>
    cases hc : env.confirm with
    | throws m => simp [submitAndVerify, hs, hc] at h200
    | ok oe =>
      cases oe with
      | some e => simp [submitAndVerify, hs, hc] at h200
      | none =>
        cases hg : env.getTx with
        | throws m => simp [submitAndVerify, hs, hc, hg] at h200
        | ok ot =>
          cases ot with
          | none => simp [submitAndVerify, hs, hc, hg] at h200
          | some ctx =>
            refine ⟨ctx, rfl, ?_⟩
            by_cases hlt :
                amountReceived cfg.recipientTokenAccount ctx < cfg.priceUSDC
            · simp [submitAndVerify, hs, hc, hg, hlt] at h200
            · exact le_of_not_lt hlt

/-- When the confirmed balance delta is below the price, the
post-deserialization stage answers 402 and not the premium body. -/
theorem submitAndVerify_low (cfg : Config) (env : Env) (ctx : ConfirmedTx)
    (hget : env.getTx = CallOutcome.ok (some ctx))
    (hlt : amountReceived cfg.recipientTokenAccount ctx < cfg.priceUSDC) :
    (submitAndVerify cfg env).response.status = 402 ∧
    (submitAndVerify cfg env).response.body.isPremium = false := by
  unfold submitAndVerify
  cases hs : env.send with
  | throws m => exact ⟨rfl, rfl⟩
  | ok sig =>
    cases hc : env.confirm with
    | throws m => exact ⟨rfl, rfl⟩
    | ok oe =>
      cases oe with
      | some e => exact ⟨rfl, rfl⟩
      | none =>
        rw [hget]
        dsimp only
        rw [if_pos hlt]
        exact ⟨rfl, rfl⟩

/-- Exact shape of the insufficient-payment rejection on the full
successfully-confirmed path. -/
theorem submitAndVerify_insufficient (cfg : Config) (env : Env) (sig : String)
    (ctx : ConfirmedTx)
    (hsend : env.send = CallOutcome.ok sig)
    (hconf : env.confirm = CallOutcome.ok none)
    (hget : env.getTx = CallOutcome.ok (some ctx))
    (hlt : amountReceived cfg.recipientTokenAccount ctx < cfg.priceUSDC) :
    submitAndVerify cfg env =
      ⟨⟨402, Body.errBody
          (insufficientMsg (amountReceived cfg.recipientTokenAccount ctx)
            cfg.priceUSDC) none⟩, true⟩ := by
  unfold submitAndVerify
  rw [hsend, hconf, hget]
  dsimp only
  rw [if_pos hlt]

/-- The post-deserialization stage answers either 200 or 402. -/
theorem submitAndVerify_status (cfg : Config) (env : Env) :
    (submitAndVerify cfg env).response.status = 200 ∨
    (submitAndVerify cfg env).response.status = 402 := by
  unfold submitAndVerify
  cases hs : env.send with
  | throws m => exact Or.inr rfl
  | ok sig =>
    cases hc : env.confirm with
    | throws m => exact Or.inr rfl
    | ok oe =>
      cases oe with
      | some e => exact Or.inr rfl
      | none =>
        cases hg : env.getTx with
        | throws m => exact Or.inr rfl
        | ok ot =>
          cases ot with
          | none => exact Or.inr rfl
          | some ctx =>
            dsimp only
            split
            · exact Or.inr rfl
            · exact Or.inl rfl

/-- With a parsed header carrying a serialized transaction that
deserializes, the handler is exactly the post-deserialization stage. -/
theorem premiumHandler_parsed (cfg : Config) (env : Env)
    (proof : PaymentProof) (tx : String)
    (htx : proof.serializedTransaction = some tx)
    (hde : deserializeTx env ≠ none) :
    premiumHandler cfg env ⟨some (XPaymentHeader.parsed proof)⟩ =
      submitAndVerify cfg env := by
  obtain ⟨v, s, n, st⟩ := proof
  cases st with
  | none => exact absurd htx (by simp)
  | some t =>
    cases hd : deserializeTx env with
    | none => exact absurd hd hde
    | some k => simp [premiumHandler, handlePayment, hd]

/-- With a parsed header carrying a serialized transaction on which both
deserialization attempts fail, the handler answers the invalid-format 402
and never submits. -/
theorem premiumHandler_invalid_format (cfg : Config) (env : Env)
    (proof : PaymentProof) (tx : String)
    (htx : proof.serializedTransaction = some tx)
    (hde : deserializeTx env = none) :
    premiumHandler cfg env ⟨some (XPaymentHeader.parsed proof)⟩ =
      ⟨⟨402, Body.errBody "Invalid transaction format" none⟩, false⟩ := by
  obtain ⟨v, s, n, st⟩ := proof
  cases st with
  | none => exact absurd htx (by simp)
  | some t => simp [premiumHandler, handlePayment, hde]

/-- The handler returns status 200 only when the confirmed transaction was
fetched and its balance delta to the recipient token account is at least
the price. -/
theorem premiumHandler_200 (cfg : Config) (env : Env) (req : Request)
    (h200 : (premiumHandler cfg env req).response.status = 200) :
    ∃ ctx, env.getTx = CallOutcome.ok (some ctx) ∧
      cfg.priceUSDC ≤ amountReceived cfg.recipientTokenAccount ctx := by
  obtain ⟨xp⟩ := req
  cases xp with
  | none => simp [premiumHandler] at h200
  | some hdr =>
    cases hdr with
    | malformedJson m => simp [premiumHandler, handlePayment] at h200
    | parsed proof =>
      obtain ⟨v, s, n, st⟩ := proof
      cases st with
      | none => simp [premiumHandler, handlePayment] at h200
      | some t =>
        cases hd : deserializeTx env with
        | none =>
          rw [premiumHandler_invalid_format cfg env ⟨v, s, n, some t⟩ t rfl hd]
            at h200
          simp at h200
        | some k =>
          rw [premiumHandler_parsed cfg env ⟨v, s, n, some t⟩ t rfl
            (by rw [hd]; exact fun h => Option.noConfusion h)] at h200
          exact submitAndVerify_200 cfg env h200

/-- When the fetched confirmed transaction credits less than the price to
the recipient token account, the handler answers 402 and never the premium
body, whatever the request was. -/
theorem handler_low_delta (cfg : Config) (env : Env) (req : Request)
    (ctx : ConfirmedTx)
    (hget : env.getTx = CallOutcome.ok (some ctx))
    (hlt : amountReceived cfg.recipientTokenAccount ctx < cfg.priceUSDC) :
    (premiumHandler cfg env req).response.status = 402 ∧
    (premiumHandler cfg env req).response.body.isPremium = false := by
  obtain ⟨xp⟩ := req
  cases xp with
  | none => exact ⟨rfl, rfl⟩
  | some hdr =>
    cases hdr with
    | malformedJson m => exact ⟨rfl, rfl⟩
    | parsed proof =>
      obtain ⟨v, s, n, st⟩ := proof
      cases st with
      | none => exact ⟨rfl, rfl⟩
      | some t =>
        cases hd : deserializeTx env with
        | none =>
          rw [premiumHandler_invalid_format cfg env ⟨v, s, n, some t⟩ t rfl hd]
          exact ⟨rfl, rfl⟩
        | some k =>
          rw [premiumHandler_parsed cfg env ⟨v, s, n, some t⟩ t rfl
            (by rw [hd]; exact fun h => Option.noConfusion h)]
          exact submitAndVerify_low cfg env ctx hget hlt

/-- The handler answers either 200 or 402, never anything else. -/
theorem premiumHandler_status (cfg : Config) (env : Env) (req : Request) :
    (premiumHandler cfg env req).response.status = 200 ∨
    (premiumHandler cfg env req).response.status = 402 := by
  obtain ⟨xp⟩ := req
  cases xp with
  | none => exact Or.inr rfl
  | some hdr =>
    cases hdr with
    | malformedJson m => exact Or.inr rfl
    | parsed proof =>
      obtain ⟨v, s, n, st⟩ := proof
      cases st with
      | none => exact Or.inr rfl
      | some t =>
        cases hd : deserializeTx env with
        | none =>
          rw [premiumHandler_invalid_format cfg env ⟨v, s, n, some t⟩ t rfl hd]
          exact Or.inr rfl
        | some k =>
          rw [premiumHandler_parsed cfg env ⟨v, s, n, some t⟩ t rfl
            (by rw [hd]; exact fun h => Option.noConfusion h)]
          exact submitAndVerify_status cfg env

/-- When no post balance entry maps to the recipient token account, the
amountReceived loop keeps its initial value 0. -/
theorem amountReceivedLoop_eq_zero (recipient : String)
    (pres : List TokenBalance) (keys : List String)
    (posts : List TokenBalance)
    (h : ∀ pb ∈ posts, keys.get? pb.accountIndex ≠ some recipient) :
    amountReceivedLoop recipient pres keys posts = 0 := by
  induction posts with
  | nil => rfl
  | cons pb rest ih =>
    have hpb := h pb (List.mem_cons_self pb rest)
    have hrest : ∀ x ∈ rest, keys.get? x.accountIndex ≠ some recipient :=
      fun x hx => h x (List.mem_cons_of_mem pb hx)
    cases hk : keys.get? pb.accountIndex with
    | none => rw [amountReceivedLoop, hk]; exact ih hrest
    | some key =>
      have hne : ¬ key = recipient := fun he => hpb (by rw [hk, he])
      rw [amountReceivedLoop, hk]
      dsimp only
      rw [if_neg hne]
      exact ih hrest

/- Claim theorems. -/

/-- C1: the server declares settlement success (status 200 with the premium
content) only after fetching the confirmed transaction and finding that the
balance delta credited to the recipient token account is at least the
required price; whenever the confirmed delta is strictly below the price,
the response is a 402 and the premium body is never released. -/
theorem premium_released_only_if_balance_delta_sufficient
    (cfg : Config) (env : Env) (req : Request) :
    ((premiumHandler cfg env req).response.status = 200 →
      ∃ ctx, env.getTx = CallOutcome.ok (some ctx) ∧
        cfg.priceUSDC ≤ amountReceived cfg.recipientTokenAccount ctx) ∧
    (∀ ctx, env.getTx = CallOutcome.ok (some ctx) →
      amountReceived cfg.recipientTokenAccount ctx < cfg.priceUSDC →
      (premiumHandler cfg env req).response.status = 402 ∧
      (premiumHandler cfg env req).response.body.isPremium = false) :=
  ⟨premiumHandler_200 cfg env req,
   fun ctx hget hlt => handler_low_delta cfg env req ctx hget hlt⟩

/-- Witness for C1: at the paid scenario the first part yields the fetched
transaction with a sufficient delta; at the underpaid one the second part
yields the 402 rejection with no premium body. -/
theorem premium_released_only_if_balance_delta_sufficient_witness :
    (∃ ctx, (envOk ctxPaid).getTx = CallOutcome.ok (some ctx) ∧
      cfgEx.priceUSDC ≤ amountReceived cfgEx.recipientTokenAccount ctx) ∧
    ((premiumHandler cfgEx (envOk ctxUnderpaid) reqEx).response.status = 402 ∧
      (premiumHandler cfgEx (envOk ctxUnderpaid) reqEx).response.body.isPremium
        = false) :=
  ⟨(premium_released_only_if_balance_delta_sufficient cfgEx (envOk ctxPaid)
      reqEx).1 (by decide),
   (premium_released_only_if_balance_delta_sufficient cfgEx
      (envOk ctxUnderpaid) reqEx).2 ctxUnderpaid rfl (by decide)⟩

/-- C2 counterexample: submitting the identical payment payload twice makes
two chain submissions, not at most one; the server holds no cached outcome
and re-executes the settlement path on the retry. -/
theorem retry_causes_second_chain_submission :
    chainSubmissions cfgEx (envOk ctxPaid) [reqEx, reqEx] = 2 ∧
    ¬ chainSubmissions cfgEx (envOk ctxPaid) [reqEx, reqEx] ≤ 1 := by
  decide

/-- C2 amended: the server keeps no idempotency state at all: every request
whose payload parses and whose transaction deserializes performs its own
chain submission, so n retries of the same payment cause n submissions;
deduplication is left to the chain, which rejects a duplicate transaction
signature. -/
theorem every_retry_submits (cfg : Config) (env : Env) (req : Request)
    (proof : PaymentProof) (tx : String)
    (hreq : req.xPayment = some (XPaymentHeader.parsed proof))
    (htx : proof.serializedTransaction = some tx)
    (hde : deserializeTx env ≠ none) :
    ∀ n : Nat, chainSubmissions cfg env (List.replicate n req) = n := by
  have hsub : (premiumHandler cfg env req).submitted = true := by
    obtain ⟨xp⟩ := req
    have hx : xp = some (XPaymentHeader.parsed proof) := hreq
    subst hx
    rw [premiumHandler_parsed cfg env proof tx htx hde]
    exact submitAndVerify_submitted cfg env
  intro n
  induction n with
  | zero => rfl
  | succ k ih =>
    have ihc : (List.map (fun r => (premiumHandler cfg env r).submitted)
        (List.replicate k req)).count true = k := ih
    show (List.map (fun r => (premiumHandler cfg env r).submitted)
        (List.replicate (k + 1) req)).count true = k + 1
    simp only [List.replicate_succ, List.map_cons, hsub, List.count_cons, ihc]
    simp

/-- Witness for C2 amended: two retries of the concrete payment make
exactly two chain submissions. -/
theorem every_retry_submits_witness :
    chainSubmissions cfgEx (envOk ctxPaid) (List.replicate 2 reqEx) = 2 :=
  every_retry_submits cfgEx (envOk ctxPaid) reqEx proofEx "TXB64" rfl rfl
    (by decide) 2

/-- C3 counterexample: a payload whose scheme and network pair (bsc,
bsc-mainnet) is not among the accepted set (exact, solana-devnet) is still
submitted to the chain and even answered 200, instead of failing with
NoMatch as a 402 with no chain submission. -/
theorem unsupported_scheme_network_still_settles :
    proofBogus.scheme ≠ some "exact" ∧
    proofBogus.network ≠ some "solana-devnet" ∧
    (premiumHandler cfgEx (envOk ctxPaid) reqBogus).submitted = true ∧
    (premiumHandler cfgEx (envOk ctxPaid) reqBogus).response.status = 200 := by
  decide

/-- C3 amended: the server never consults the scheme or network fields of
the payload: replacing them by arbitrary values leaves the handling of the
request unchanged, so an unsupported pair is deserialized and settled
exactly like the accepted one; no NoMatch rejection path exists in the
handler. -/
theorem scheme_network_ignored (cfg : Config) (env : Env) (p : PaymentProof)
    (s n : Option String) :
    premiumHandler cfg env
        ⟨some (XPaymentHeader.parsed { p with scheme := s, network := n })⟩ =
      premiumHandler cfg env ⟨some (XPaymentHeader.parsed p)⟩ := by
  obtain ⟨v, s0, n0, st⟩ := p
  cases st <;> rfl

/-- C4 counterexample: a deserializable transaction that contains no
transfer crediting the recipient token account (its confirmed balance delta
is 0) is nevertheless submitted to the chain; no structural check of a
transfer instruction precedes submission, and the rejection happens only
after on-chain confirmation. -/
theorem submission_precedes_structural_check :
    amountReceived cfgEx.recipientTokenAccount ctxNone = 0 ∧
    (premiumHandler cfgEx (envOk ctxNone) reqEx).submitted = true ∧
    (premiumHandler cfgEx (envOk ctxNone) reqEx).response.status = 402 := by
  decide

/-- C4 amended: the only pre-submission check the server performs on the
payload transaction is that its bytes deserialize as a legacy or versioned
transaction; when one of the two attempts succeeds the transaction is
submitted unconditionally, whatever its instructions, and when both fail
the server answers the invalid-format 402 without submitting; amount and
recipient are verified only after confirmation, from the balance delta. -/
theorem deserialize_only_gate (cfg : Config) (env : Env)
    (proof : PaymentProof) (tx : String)
    (htx : proof.serializedTransaction = some tx) :
    (deserializeTx env ≠ none →
      (premiumHandler cfg env ⟨some (XPaymentHeader.parsed proof)⟩).submitted
        = true) ∧
    (deserializeTx env = none →
      premiumHandler cfg env ⟨some (XPaymentHeader.parsed proof)⟩ =
        ⟨⟨402, Body.errBody "Invalid transaction format" none⟩, false⟩) := by
  constructor
  · intro hde
    rw [premiumHandler_parsed cfg env proof tx htx hde]
    exact submitAndVerify_submitted cfg env
  · intro hde
    exact premiumHandler_invalid_format cfg env proof tx htx hde

/-- Witness for C4 amended: the concrete deserializable payment is
submitted, and with both deserializations failing the server answers the
invalid-format 402 without submitting. -/
theorem deserialize_only_gate_witness :
    (premiumHandler cfgEx (envOk ctxPaid)
        ⟨some (XPaymentHeader.parsed proofEx)⟩).submitted = true ∧
    premiumHandler cfgEx envNoDeser ⟨some (XPaymentHeader.parsed proofEx)⟩ =
      ⟨⟨402, Body.errBody "Invalid transaction format" none⟩, false⟩ :=
  ⟨(deserialize_only_gate cfgEx (envOk ctxPaid) proofEx "TXB64" rfl).1
      (by decide),
   (deserialize_only_gate cfgEx envNoDeser proofEx "TXB64" rfl).2 rfl⟩

/-- C5: whenever the paid amount (the confirmed balance delta credited to
the recipient token account) is strictly below the required price, the
server answers 402 with the error string naming the insufficiency (received
versus expected amounts) and settlement is not reported successful: the
response is exactly the insufficient-payment rejection, never the premium
body. In this implementation the check runs after on-chain confirmation. -/
theorem insufficient_amount_rejected_402 (cfg : Config) (env : Env)
    (proof : PaymentProof) (tx sig : String) (ctx : ConfirmedTx)
    (htx : proof.serializedTransaction = some tx)
    (hde : deserializeTx env ≠ none)
    (hsend : env.send = CallOutcome.ok sig)
    (hconf : env.confirm = CallOutcome.ok none)
    (hget : env.getTx = CallOutcome.ok (some ctx))
    (hlt : amountReceived cfg.recipientTokenAccount ctx < cfg.priceUSDC) :
    premiumHandler cfg env ⟨some (XPaymentHeader.parsed proof)⟩ =
      ⟨⟨402, Body.errBody
          (insufficientMsg (amountReceived cfg.recipientTokenAccount ctx)
            cfg.priceUSDC) none⟩, true⟩ := by
  rw [premiumHandler_parsed cfg env proof tx htx hde]
  exact submitAndVerify_insufficient cfg env sig ctx hsend hconf hget hlt

/-- Witness for C5: the concrete underpaid payment (500000 received against
1000000 required) is answered with exactly the insufficient-payment 402. -/
theorem insufficient_amount_rejected_402_witness :
    premiumHandler cfgEx (envOk ctxUnderpaid)
        ⟨some (XPaymentHeader.parsed proofEx)⟩ =
      ⟨⟨402, Body.errBody
          (insufficientMsg
            (amountReceived cfgEx.recipientTokenAccount ctxUnderpaid)
            cfgEx.priceUSDC) none⟩, true⟩ :=
  insufficient_amount_rejected_402 cfgEx (envOk ctxUnderpaid) proofEx "TXB64"
    "SIG" ctxUnderpaid rfl (by decide) rfl rfl rfl (by decide)

/-- C6 counterexample: a header that decodes to x402Version 999 (not a
supported version) with empty scheme and network strings is not rejected by
any DecodeError: the server proceeds, submits the transaction and answers
200. -/
theorem decode_skips_version_and_field_checks :
    proofBadMeta.x402Version = some 999 ∧
    proofBadMeta.scheme = some "" ∧
    proofBadMeta.network = some "" ∧
    (premiumHandler cfgEx (envOk ctxPaid)
        ⟨some (XPaymentHeader.parsed proofBadMeta)⟩).response.status = 200 ∧
    (premiumHandler cfgEx (envOk ctxPaid)
        ⟨some (XPaymentHeader.parsed proofBadMeta)⟩).submitted = true := by
  decide

/-- C6 amended: decoding the X-PAYMENT header only base64-decodes and
JSON-parses it; a parse failure is caught and surfaced as a 402 with the
generic Payment verification failed error and no submission, while
x402Version, scheme and network are never validated: changing them to any
values, supported or not, leaves the handling of the request unchanged. -/
theorem decode_only_parse_checked (cfg : Config) (env : Env) (msg : String)
    (p : PaymentProof) (v : Option Int) (s n : Option String) :
    premiumHandler cfg env ⟨some (XPaymentHeader.malformedJson msg)⟩ =
      ⟨⟨402, Body.errBody "Payment verification failed" (some msg)⟩, false⟩ ∧
    premiumHandler cfg env
        ⟨some (XPaymentHeader.parsed
          { p with x402Version := v, scheme := s, network := n })⟩ =
      premiumHandler cfg env ⟨some (XPaymentHeader.parsed p)⟩ := by
  refine ⟨rfl, ?_⟩
  obtain ⟨v0, s0, n0, st⟩ := p
  cases st <;> rfl

/-- C7 counterexample: a transport fault (sendRawTransaction throwing
because the RPC endpoint is unreachable) is surfaced as status 402 with the
same generic Payment verification failed error as a validation failure such
as a malformed JSON header; status and error field coincide, so a caller
cannot tell an unknown outcome from a rejected one. -/
theorem transport_fault_conflated_with_rejection :
    (premiumHandler cfgEx envTransportFault reqEx).response.status = 402 ∧
    (premiumHandler cfgEx envTransportFault reqEx).response.body =
      Body.errBody "Payment verification failed" (some "fetch failed") ∧
    (premiumHandler cfgEx (envOk ctxPaid)
        ⟨some (XPaymentHeader.malformedJson "bad json")⟩).response.body =
      Body.errBody "Payment verification failed" (some "bad json") := by
  decide

/-- C7 amended: every failure path, validation and transport alike, maps to
a 402 response (the handler never produces a status other than 200 or 402,
so expected failures never escape as exceptions); in particular a transport
fault thrown by sendRawTransaction is caught by the same catch-all as
validation exceptions and reported as the generic Payment verification
failed 402, not distinctly. -/
theorem all_failures_402 (cfg : Config) (env : Env) (req : Request) :
    ((premiumHandler cfg env req).response.status = 200 ∨
      (premiumHandler cfg env req).response.status = 402) ∧
    (∀ proof tx msg, req.xPayment = some (XPaymentHeader.parsed proof) →
      proof.serializedTransaction = some tx →
      deserializeTx env ≠ none →
      env.send = CallOutcome.throws msg →
      (premiumHandler cfg env req).response =
        ⟨402, Body.errBody "Payment verification failed" (some msg)⟩) := by
  refine ⟨premiumHandler_status cfg env req, ?_⟩
  intro proof tx msg hreq htx hde hsend
  obtain ⟨xp⟩ := req
  have hx : xp = some (XPaymentHeader.parsed proof) := hreq
  subst hx
  rw [premiumHandler_parsed cfg env proof tx htx hde]
  unfold submitAndVerify
  rw [hsend]

/-- Witness for C7 amended: the concrete transport fault is answered with
the generic 402. -/
theorem all_failures_402_witness :
    (premiumHandler cfgEx envTransportFault reqEx).response =
      ⟨402, Body.errBody "Payment verification failed"
        (some "fetch failed")⟩ :=
  (all_failures_402 cfgEx envTransportFault reqEx).2 proofEx "TXB64"
    "fetch failed" rfl rfl (by decide) rfl

/-- C8 counterexample: the no-payment 402 body has keys x402Version and
accepts only, so it carries no error key; its accepts element carries none
of the normative PaymentRequirements keys maxAmountRequired, payTo, asset,
maxTimeoutSeconds or extra (it uses recipientWallet, tokenAccount, mint and
amount instead); and the insufficient-payment 402 body has the single key
error, without x402Version or accepts. -/
theorem quote_body_shape_counterexample :
    (premiumHandler cfgEx (envOk ctxPaid) ⟨none⟩).response.status = 402 ∧
    (premiumHandler cfgEx (envOk ctxPaid) ⟨none⟩).response.body.keys =
      ["x402Version", "accepts"] ∧
    ((premiumHandler cfgEx (envOk ctxPaid)
        ⟨none⟩).response.body.keys.contains "error") = false ∧
    ((quoteAccepts cfgEx).all fun e =>
      !(e.keys.contains "maxAmountRequired") && !(e.keys.contains "payTo") &&
      !(e.keys.contains "asset") && !(e.keys.contains "maxTimeoutSeconds") &&
      !(e.keys.contains "extra")) = true ∧
    (premiumHandler cfgEx (envOk ctxUnderpaid) reqEx).response.body.keys =
      ["error"] := by
  decide

/-- C8 amended: every 402 body the handler produces has one of three key
shapes: the no-payment quote body with keys x402Version and accepts (no
error key, its accepts elements keyed scheme, network, recipientWallet,
tokenAccount, mint, amount, amountUSDC, resource, description, mimeType),
or a failure body with the single key error, or one with keys error and
details. -/
theorem body_shapes (cfg : Config) (env : Env) :
    (premiumHandler cfg env ⟨none⟩).response.status = 402 ∧
    (premiumHandler cfg env ⟨none⟩).response.body.keys =
      ["x402Version", "accepts"] ∧
    (∀ req, (premiumHandler cfg env req).response.status = 402 →
      (premiumHandler cfg env req).response.body.keys =
          ["x402Version", "accepts"] ∨
        (premiumHandler cfg env req).response.body.keys = ["error"] ∨
        (premiumHandler cfg env req).response.body.keys =
          ["error", "details"]) := by
  refine ⟨rfl, rfl, ?_⟩
  intro req h402
  obtain ⟨xp⟩ := req
  cases xp with
  | none => exact Or.inl rfl
  | some hdr =>
    cases hdr with
    | malformedJson m => exact Or.inr (Or.inr rfl)
    | parsed proof =>
      obtain ⟨v, s, n, st⟩ := proof
      cases st with
      | none => exact Or.inr (Or.inr rfl)
      | some t =>
        cases hd : deserializeTx env with
        | none =>
          rw [premiumHandler_invalid_format cfg env ⟨v, s, n, some t⟩ t rfl hd]
          exact Or.inr (Or.inl rfl)
        | some k =>
          rw [premiumHandler_parsed cfg env ⟨v, s, n, some t⟩ t rfl
            (by rw [hd]; exact fun h => Option.noConfusion h)] at h402 ⊢
          cases hs : env.send with
          | throws m => simp [submitAndVerify, hs, Body.keys]
          | ok sig =>
            cases hc : env.confirm with
            | throws m => simp [submitAndVerify, hs, hc, Body.keys]
            | ok oe =>
              cases oe with
              | some e => simp [submitAndVerify, hs, hc, Body.keys]
              | none =>
                cases hg : env.getTx with
                | throws m => simp [submitAndVerify, hs, hc, hg, Body.keys]
                | ok ot =>
                  cases ot with
                  | none => simp [submitAndVerify, hs, hc, hg, Body.keys]
                  | some ctx =>
                    by_cases hlt : amountReceived cfg.recipientTokenAccount
                        ctx < cfg.priceUSDC
                    · simp [submitAndVerify, hs, hc, hg, hlt, Body.keys]
                    · simp [submitAndVerify, hs, hc, hg, hlt] at h402

/-- Witness for C8 amended: the underpaid 402 body falls in the error-only
shape. -/
theorem body_shapes_witness :
    (premiumHandler cfgEx (envOk ctxUnderpaid) reqEx).response.body.keys =
        ["x402Version", "accepts"] ∨
      (premiumHandler cfgEx (envOk ctxUnderpaid) reqEx).response.body.keys =
        ["error"] ∨
      (premiumHandler cfgEx (envOk ctxUnderpaid) reqEx).response.body.keys =
        ["error", "details"] :=
  (body_shapes cfgEx (envOk ctxUnderpaid)).2.2 reqEx (by decide)

/-- C9: on a payload carrying a serialized transaction the server responds
with the Invalid transaction format 402 (without submitting) exactly when
both the legacy deserialization attempt and the versioned one fail; the
legacy attempt is tried first and wins when it succeeds, otherwise the
versioned result is used. -/
theorem legacy_then_versioned_deserialization (cfg : Config) (env : Env)
    (proof : PaymentProof) (tx : String)
    (htx : proof.serializedTransaction = some tx) :
    (premiumHandler cfg env ⟨some (XPaymentHeader.parsed proof)⟩ =
        ⟨⟨402, Body.errBody "Invalid transaction format" none⟩, false⟩ ↔
      env.legacyOk = false ∧ env.versionedOk = false) ∧
    (env.legacyOk = true → deserializeTx env = some TxKind.legacy) ∧
    (env.legacyOk = false → env.versionedOk = true →
      deserializeTx env = some TxKind.versioned) := by
  refine ⟨⟨?_, ?_⟩, ?_, ?_⟩
  · intro heq
    by_cases hl : env.legacyOk
    · exfalso
      have hde : deserializeTx env ≠ none := by simp [deserializeTx, hl]
      rw [premiumHandler_parsed cfg env proof tx htx hde] at heq
      have hsub := submitAndVerify_submitted cfg env
      rw [heq] at hsub
      exact Bool.noConfusion hsub
    · by_cases hv : env.versionedOk
      · exfalso
        have hde : deserializeTx env ≠ none := by
          simp [deserializeTx, hl, hv]
        rw [premiumHandler_parsed cfg env proof tx htx hde] at heq
        have hsub := submitAndVerify_submitted cfg env
        rw [heq] at hsub
        exact Bool.noConfusion hsub
      · exact ⟨Bool.eq_false_iff.mpr hl, Bool.eq_false_iff.mpr hv⟩
  · rintro ⟨hl, hv⟩
    exact premiumHandler_invalid_format cfg env proof tx htx
      (by simp [deserializeTx, hl, hv])
  · intro hl
    simp [deserializeTx, hl]
  · intro hl hv
    simp [deserializeTx, hl, hv]

/-- Witness for C9: with both deserialization attempts failing, the
concrete payment is answered with the invalid-format 402. -/
theorem legacy_then_versioned_deserialization_witness :
    premiumHandler cfgEx envNoDeser ⟨some (XPaymentHeader.parsed proofEx)⟩ =
      ⟨⟨402, Body.errBody "Invalid transaction format" none⟩, false⟩ :=
  (legacy_then_versioned_deserialization cfgEx envNoDeser proofEx "TXB64"
    rfl).1.mpr ⟨rfl, rfl⟩

/-- C10: when the confirmed transaction has no post token balance entry
resolving to the recipient token account, the computed amount received
keeps its initial value 0; with a positive required price the handler
therefore answers 402 and never releases the premium body, and on the
fully confirmed path the body is exactly the insufficient-payment error
reporting 0 received. -/
theorem no_recipient_entry_defaults_zero (cfg : Config) (env : Env)
    (req : Request) (ctx : ConfirmedTx)
    (hprice : 0 < cfg.priceUSDC)
    (hget : env.getTx = CallOutcome.ok (some ctx))
    (hnone : ∀ pb ∈ ctx.postTokenBalances,
      ctx.staticAccountKeys.get? pb.accountIndex ≠
        some cfg.recipientTokenAccount) :
    amountReceived cfg.recipientTokenAccount ctx = 0 ∧
    (premiumHandler cfg env req).response.status = 402 ∧
    (premiumHandler cfg env req).response.body.isPremium = false ∧
    (∀ sig proof tx, req.xPayment = some (XPaymentHeader.parsed proof) →
      proof.serializedTransaction = some tx → deserializeTx env ≠ none →
      env.send = CallOutcome.ok sig → env.confirm = CallOutcome.ok none →
      (premiumHandler cfg env req).response.body =
        Body.errBody (insufficientMsg 0 cfg.priceUSDC) none) := by
  have hzero : amountReceived cfg.recipientTokenAccount ctx = 0 :=
    amountReceivedLoop_eq_zero cfg.recipientTokenAccount
      ctx.preTokenBalances ctx.staticAccountKeys ctx.postTokenBalances hnone
  have hlt : amountReceived cfg.recipientTokenAccount ctx < cfg.priceUSDC := by
    rw [hzero]; exact hprice
  refine ⟨hzero, (handler_low_delta cfg env req ctx hget hlt).1,
    (handler_low_delta cfg env req ctx hget hlt).2, ?_⟩
  intro sig proof tx hreq htx hde hsend hconf
  obtain ⟨xp⟩ := req
  have hx : xp = some (XPaymentHeader.parsed proof) := hreq
  subst hx
  rw [premiumHandler_parsed cfg env proof tx htx hde,
    submitAndVerify_insufficient cfg env sig ctx hsend hconf hget hlt, hzero]

/-- Witness for C10: the concrete confirmed transaction crediting some
other token account yields amount 0 and a 402 with no premium content. -/
theorem no_recipient_entry_defaults_zero_witness :
    amountReceived cfgEx.recipientTokenAccount ctxNone = 0 ∧
    (premiumHandler cfgEx (envOk ctxNone) reqEx).response.status = 402 :=
  ⟨(no_recipient_entry_defaults_zero cfgEx (envOk ctxNone) reqEx ctxNone
      (by decide) rfl (by decide)).1,
   (no_recipient_entry_defaults_zero cfgEx (envOk ctxNone) reqEx ctxNone
      (by decide) rfl (by decide)).2.1⟩

end X402
